import Mathlib

/-!
Verification of the authentication module `src/kalshi/src/auth.rs` of the
kalshi-rust client: the `login` and `logout` transitions of the typed
`Kalshi` handle, the wire-level requests they issue, the mutation of the
receiver they perform, and the error taxonomy they surface.

The HTTP layer is modelled by an environment value describing the outcome of
the awaited network steps; serde's (de)serialization of the login payload and
response is modelled by carrying the structured values directly.
-/

namespace KalshiAuth

/-- Shared HTTP transport (`reqwest::Client` in the source).  It is
reference-counted: `clone` shares the same underlying client, which we model
by an identity number that cloning preserves. -/
structure Transport where
  id : Nat
deriving DecidableEq

/-- Authentication state: the phantom type parameter of `Kalshi<S>` in the
source, with markers `LoggedOut` and `LoggedIn`, made an explicit tag here. -/
inductive AuthState where
  | LoggedOut
  | LoggedIn
deriving DecidableEq

/-- Modelled from the spec: the `Kalshi` struct itself is declared outside
`auth.rs` (in the crate root, not under `src/`); its fields are exactly the
ones `auth.rs` reads and writes — `base_url`, `curr_token`, `member_id`,
`client` and the phantom `state` — matching the spec's data model of the
client handle. -/
structure Kalshi where
  base_url : String
  curr_token : Option String
  member_id : Option String
  client : Transport
  state : AuthState
deriving DecidableEq

/-- Modelled from the spec: the error type lives in `kalshi_error.rs`, which
is not under `src/`; the spec's error taxonomy distinguishes a transport
failure from a malformed-response (deserialization) failure. -/
inductive KalshiError where
  | TransportError
  | DeserializationError
deriving DecidableEq

/-- Request body sent by `login` (struct `LoginPayload` in `auth.rs`),
serialized to the JSON request body by the transport. -/
structure LoginPayload where
  email : String
  password : String
deriving DecidableEq

/-- Successful response body of the login endpoint (struct `LoginResponse`
in `auth.rs`). -/
structure LoginResponse where
  member_id : String
  token : String
deriving DecidableEq

/-- Body of an outgoing HTTP request: empty, or the JSON serialization of a
`LoginPayload`. -/
inductive Body where
  | empty
  | json (p : LoginPayload)
deriving DecidableEq

/-- An outgoing HTTP request as assembled by the request builder calls in
`auth.rs`: method, URL, explicitly set headers, and body. -/
structure HttpRequest where
  method : String
  url : String
  headers : List (String × String)
  body : Body
deriving DecidableEq

/-- Environment behavior of the two awaited steps of `login`:
`send().await?` may fail before any response is obtained (`sendFail`), the
obtained body may fail to deserialize as a `LoginResponse` in
`json().await?` (`decodeFail`), or the body parses (`ok`). -/
inductive LoginNet where
  | sendFail
  | decodeFail
  | ok (r : LoginResponse)
deriving DecidableEq

/-- Environment behavior of the single awaited step of `logout`:
`send().await?` may fail before any response is obtained (`sendFail`), or a
response with some status and body arrives (`ok`). -/
inductive LogoutNet where
  | sendFail
  | ok (status : Nat) (body : String)
deriving DecidableEq

/-- The request `login` builds: `POST` to `base_url ++ "/login"` with the
credentials serialized as the JSON body (`.json(&login_payload)`); no header
is set explicitly in the source. -/
def loginRequest (self : Kalshi) (user password : String) : HttpRequest :=
  { method := "POST"
    url := self.base_url ++ "/login"
    headers := []
    body := Body.json { email := user, password := password } }

/-- Everything observable about one `login` call: the requests handed to the
transport, the state of the `&mut self` receiver after the call, and the
returned `Result`. -/
structure LoginOutcome where
  requests : List HttpRequest
  receiver : Kalshi
  result : Except KalshiError Kalshi

/-- `Kalshi::<LoggedOut>::login` from `auth.rs`.  It builds the request,
awaits the exchange, and on a parsed response first assigns
`self.curr_token` and `self.member_id` in place (`&mut self`) and then
returns a freshly constructed `Kalshi<LoggedIn>` cloning those fields; on
either failure the `?` operator returns before any assignment. -/
def login (self : Kalshi) (user password : String) (net : LoginNet) :
    LoginOutcome :=
  let req := loginRequest self user password
  match net with
  | .sendFail =>
      { requests := [req], receiver := self
        result := .error KalshiError.TransportError }
  | .decodeFail =>
      { requests := [req], receiver := self
        result := .error KalshiError.DeserializationError }
  | .ok result =>
      let receiver :=
        { self with
          curr_token := some ("Bearer " ++ result.token)
          member_id := some result.member_id }
      { requests := [req]
        receiver := receiver
        result := .ok
          { base_url := receiver.base_url
            curr_token := receiver.curr_token
            member_id := receiver.member_id
            client := receiver.client
            state := AuthState.LoggedIn } }

/-- The request `logout` builds: `POST` to `base_url ++ "/logout"` with the
`Authorization` header set to the unwrapped stored token and an explicit
`content-type` header; no body is attached. -/
def logoutRequest (self : Kalshi) (tok : String) : HttpRequest :=
  { method := "POST"
    url := self.base_url ++ "/logout"
    headers := [("Authorization", tok), ("content-type", "application/json")]
    body := Body.empty }

/-- Everything observable about one `logout` call: the requests handed to the
transport and the returned `Result`.  `logout` takes `&self`, so there is no
post-call receiver state distinct from the input handle. -/
structure LogoutOutcome where
  requests : List HttpRequest
  result : Except KalshiError Kalshi

/-- `Kalshi::<LoggedIn>::logout` from `auth.rs`.  `none` models the panic of
`self.curr_token.clone().unwrap()` when the stored token is `None`.
Otherwise the request is sent; a send failure propagates through `?`, and
any obtained response is discarded (its status and body are never
inspected) before a fresh `Kalshi<LoggedOut>` with cleared token and
member id is returned. -/
def logout (self : Kalshi) (net : LogoutNet) : Option LogoutOutcome :=
  match self.curr_token with
  | none => none
  | some tok =>
    let req := logoutRequest self tok
    match net with
    | .sendFail =>
        some { requests := [req], result := .error KalshiError.TransportError }
    | .ok _ _ =>
        some
          { requests := [req]
            result := .ok
              { base_url := self.base_url
                curr_token := none
                member_id := none
                client := self.client
                state := AuthState.LoggedOut } }

/-- Modelled from the spec: the handle constructor is outside `auth.rs`; per
the spec's data model a fresh handle is `LoggedOut` with token and member id
both absent. -/
def initialHandle (url : String) (c : Transport) : Kalshi :=
  { base_url := url
    curr_token := none
    member_id := none
    client := c
    state := AuthState.LoggedOut }

/-- Handle values observable after any sequence of login/logout operations:
fresh handles, the receiver a `login` call was performed on after the call
returns (the `&mut` borrow ends, so the caller sees it), and the handles
returned by successful `login` and `logout` calls.  The state guards record
the phantom typing: `login` is only callable on `Kalshi<LoggedOut>` and
`logout` only on `Kalshi<LoggedIn>`. -/
inductive Reachable : Kalshi → Prop where
  | init (url : String) (c : Transport) : Reachable (initialHandle url c)
  | loginReceiver {h : Kalshi} (u p : String) (net : LoginNet) :
      Reachable h → h.state = AuthState.LoggedOut →
      Reachable (login h u p net).receiver
  | loginReturn {h h' : Kalshi} {u p : String} {net : LoginNet} :
      Reachable h → h.state = AuthState.LoggedOut →
      (login h u p net).result = .ok h' → Reachable h'
  | logoutReturn {h h' : Kalshi} {net : LogoutNet} {out : LogoutOutcome} :
      Reachable h → h.state = AuthState.LoggedIn →
      logout h net = some out → out.result = .ok h' → Reachable h'

/-- Boolean test for the `LoggedIn` tag. -/
def isLoggedInTag : AuthState → Bool
  | AuthState.LoggedIn => true
  | AuthState.LoggedOut => false

/-- The spec's claimed handle invariant, as stated: token and member id are
both present or both absent, and they are present exactly when the handle's
authentication tag is `LoggedIn`. -/
def authInvariant (h : Kalshi) : Bool :=
  (h.curr_token.isSome == h.member_id.isSome) &&
  (h.curr_token.isSome == isLoggedInTag h.state)

theorem reachable_fields {h : Kalshi} (hr : Reachable h) :
    h.curr_token.isSome = h.member_id.isSome ∧
    (h.state = AuthState.LoggedIn → h.curr_token.isSome = true) := by
  induction hr with
  | init url c => simp [initialHandle]
  | loginReceiver u p net hr hstate ih =>
      cases net with
      | sendFail => simpa [login] using ih
      | decodeFail => simpa [login] using ih
      | ok r => simp [login]
  | loginReturn hr hstate hres ih =>
      rename_i h₀ h' u p net
      cases net with
      | sendFail => simp [login] at hres
      | decodeFail => simp [login] at hres
      | ok r =>
          simp only [login] at hres
          cases hres
          simp
  | logoutReturn hr hstate hout hres ih =>
      rename_i h₀ h' net out
      rcases htok : h₀.curr_token with _ | tok
      · simp [logout, htok] at hout
      · cases net with
        | sendFail =>
            simp only [logout, htok] at hout
            cases hout
            simp at hres
        | ok s b =>
            simp only [logout, htok] at hout
            cases hout
            simp only [] at hres
            cases hres
            simp

/-- Sample handle in the `LoggedIn` state with a stored bearer token, used to
instantiate theorems with hypotheses. -/
def sampleLoggedIn : Kalshi :=
  { base_url := "https://trading-api"
    curr_token := some "Bearer tok0"
    member_id := some "mem0"
    client := ⟨3⟩
    state := AuthState.LoggedIn }

/-- C1: for every login call where the server responds with a body parsing as
a `LoginResponse`, `login` returns `Ok` with a `LoggedIn` handle whose token
field is `some ("Bearer " ++ token)` and whose member id field is
`some member_id` from the response. -/
theorem login_ok_returns_bearer_handle (h : Kalshi) (u p : String)
    (r : LoginResponse) :
    (login h u p (LoginNet.ok r)).result =
      Except.ok
        { base_url := h.base_url
          curr_token := some ("Bearer " ++ r.token)
          member_id := some r.member_id
          client := h.client
          state := AuthState.LoggedIn } := rfl

/-- Receiver handle left behind by a concrete successful login call. -/
def cexReceiver : Kalshi :=
  (login (initialHandle "https://demo-api" ⟨0⟩) "a@b.com" "pw"
    (LoginNet.ok { member_id := "42", token := "xyz" })).receiver

/-- C2 counterexample: the receiver a successful login was called on is
observable afterwards, still carries the `LoggedOut` tag, yet has its token
and member id set, so the claimed invariant fails on it. -/
theorem login_receiver_violates_claimed_invariant :
    Reachable cexReceiver ∧ authInvariant cexReceiver = false := by
  refine ⟨Reachable.loginReceiver "a@b.com" "pw"
    (LoginNet.ok { member_id := "42", token := "xyz" })
    (Reachable.init "https://demo-api" ⟨0⟩) rfl, ?_⟩
  decide

/-- C2 (amended): for every reachable handle, token and member id are both
present or both absent, and a `LoggedIn` handle always has them present; the
converse fails on the receiver of a successful login, which keeps the
`LoggedOut` tag while its token and member id are set. -/
theorem reachable_token_iff_member (h : Kalshi) (hr : Reachable h) :
    h.curr_token.isSome = h.member_id.isSome ∧
    (h.state = AuthState.LoggedIn → h.curr_token.isSome = true) :=
  reachable_fields hr

/-- Witness for the amended C2 theorem at a concrete reachable handle. -/
theorem reachable_token_iff_member_witness :
    (initialHandle "https://demo-api" ⟨1⟩).curr_token.isSome =
      (initialHandle "https://demo-api" ⟨1⟩).member_id.isSome :=
  (reachable_token_iff_member (initialHandle "https://demo-api" ⟨1⟩)
    (Reachable.init "https://demo-api" ⟨1⟩)).1

/-- C3 counterexample: a concrete successful login call returns `Ok`, yet the
receiver handle it was called on is mutated (its token and member id fields
change), refuting the claim that no field of the receiver is mutated. -/
theorem login_mutates_receiver :
    (∃ h', (login (initialHandle "https://api3" ⟨2⟩) "a@b.com" "pw"
        (LoginNet.ok { member_id := "7", token := "t0" })).result =
          Except.ok h') ∧
    (login (initialHandle "https://api3" ⟨2⟩) "a@b.com" "pw"
        (LoginNet.ok { member_id := "7", token := "t0" })).receiver ≠
      initialHandle "https://api3" ⟨2⟩ := by
  exact ⟨⟨_, rfl⟩, by decide⟩

/-- C3 (amended): a successful login constructs and returns a new `LoggedIn`
handle, but also assigns the receiver's token and member id fields in place,
leaving its base URL, transport and state tag unchanged; a successful logout
constructs and returns a new handle and, taking the handle by shared
reference, cannot mutate it. -/
theorem transition_constructs_new_handle :
    (∀ (h : Kalshi) (u p : String) (r : LoginResponse),
      (login h u p (LoginNet.ok r)).receiver.base_url = h.base_url ∧
      (login h u p (LoginNet.ok r)).receiver.client = h.client ∧
      (login h u p (LoginNet.ok r)).receiver.state = h.state ∧
      (login h u p (LoginNet.ok r)).receiver.curr_token =
        some ("Bearer " ++ r.token) ∧
      (login h u p (LoginNet.ok r)).receiver.member_id = some r.member_id ∧
      (login h u p (LoginNet.ok r)).result =
        Except.ok
          { base_url := h.base_url
            curr_token := some ("Bearer " ++ r.token)
            member_id := some r.member_id
            client := h.client
            state := AuthState.LoggedIn }) ∧
    (∀ (h : Kalshi) (tok : String) (s : Nat) (b : String),
      h.curr_token = some tok →
      logout h (LogoutNet.ok s b) =
        some
          { requests := [logoutRequest h tok]
            result := Except.ok
              { base_url := h.base_url
                curr_token := none
                member_id := none
                client := h.client
                state := AuthState.LoggedOut } }) := by
  refine ⟨fun h u p r => ⟨rfl, rfl, rfl, rfl, rfl, rfl⟩, ?_⟩
  intro h tok s b htok
  simp [logout, htok]

/-- Witness for the amended C3 theorem: the logout branch at a concrete
handle. -/
theorem transition_constructs_new_handle_witness :
    logout sampleLoggedIn (LogoutNet.ok 200 "ok") =
      some
        { requests := [logoutRequest sampleLoggedIn "Bearer tok0"]
          result := Except.ok
            { base_url := sampleLoggedIn.base_url
              curr_token := none
              member_id := none
              client := sampleLoggedIn.client
              state := AuthState.LoggedOut } } :=
  transition_constructs_new_handle.2 sampleLoggedIn "Bearer tok0" 200 "ok" rfl

/-- C4: whenever `login` returns an error — the send failing or the body
failing to deserialize — the receiver handle is exactly as it was before the
call. -/
theorem login_error_preserves_receiver (h : Kalshi) (u p : String)
    (net : LoginNet) (e : KalshiError)
    (herr : (login h u p net).result = Except.error e) :
    (login h u p net).receiver = h := by
  cases net with
  | sendFail => rfl
  | decodeFail => rfl
  | ok r => simp [login] at herr

/-- Witness for C4 at a concrete failing login call. -/
theorem login_error_preserves_receiver_witness :
    (login (initialHandle "https://api4" ⟨4⟩) "u@v.com" "pw"
      LoginNet.sendFail).receiver = initialHandle "https://api4" ⟨4⟩ :=
  login_error_preserves_receiver (initialHandle "https://api4" ⟨4⟩)
    "u@v.com" "pw" LoginNet.sendFail KalshiError.TransportError rfl

/-- C5: every successful logout call returns a handle with token `none`,
member id `none`, and the `LoggedOut` tag. -/
theorem logout_ok_clears_fields (h h' : Kalshi) (net : LogoutNet)
    (out : LogoutOutcome) (hout : logout h net = some out)
    (hres : out.result = Except.ok h') :
    h'.curr_token = none ∧ h'.member_id = none ∧
    h'.state = AuthState.LoggedOut := by
  rcases htok : h.curr_token with _ | tok
  · simp [logout, htok] at hout
  · cases net with
    | sendFail =>
        simp only [logout, htok] at hout
        cases hout
        simp at hres
    | ok s b =>
        simp only [logout, htok] at hout
        cases hout
        cases hres
        exact ⟨rfl, rfl, rfl⟩

/-- Witness for C5 at a concrete successful logout call. -/
theorem logout_ok_clears_fields_witness :
    ({ base_url := "https://trading-api"
       curr_token := none
       member_id := none
       client := ⟨3⟩
       state := AuthState.LoggedOut } : Kalshi).curr_token = none ∧
    ({ base_url := "https://trading-api"
       curr_token := none
       member_id := none
       client := ⟨3⟩
       state := AuthState.LoggedOut } : Kalshi).member_id = none ∧
    ({ base_url := "https://trading-api"
       curr_token := none
       member_id := none
       client := ⟨3⟩
       state := AuthState.LoggedOut } : Kalshi).state = AuthState.LoggedOut :=
  logout_ok_clears_fields sampleLoggedIn _ (LogoutNet.ok 200 "ignored") _
    rfl rfl

/-- C6: every logout call hands the transport exactly one POST request to
`base_url ++ "/logout"` whose `Authorization` header is the handle's stored
token, with a `content-type` header of `application/json` and an empty body;
composed after a successful login with response token `t`, that header is
`"Bearer " ++ t`. -/
theorem logout_issues_single_bearer_post :
    (∀ (h : Kalshi) (tok : String) (net : LogoutNet) (out : LogoutOutcome),
      h.curr_token = some tok → logout h net = some out →
      out.requests =
        [{ method := "POST"
           url := h.base_url ++ "/logout"
           headers := [("Authorization", tok),
                       ("content-type", "application/json")]
           body := Body.empty }]) ∧
    (∀ (h₀ h₁ : Kalshi) (u p : String) (r : LoginResponse) (net : LogoutNet)
        (out : LogoutOutcome),
      (login h₀ u p (LoginNet.ok r)).result = Except.ok h₁ →
      logout h₁ net = some out →
      out.requests =
        [{ method := "POST"
           url := h₀.base_url ++ "/logout"
           headers := [("Authorization", "Bearer " ++ r.token),
                       ("content-type", "application/json")]
           body := Body.empty }]) := by
  have key : ∀ (h : Kalshi) (tok : String) (net : LogoutNet)
      (out : LogoutOutcome),
      h.curr_token = some tok → logout h net = some out →
      out.requests =
        [{ method := "POST"
           url := h.base_url ++ "/logout"
           headers := [("Authorization", tok),
                       ("content-type", "application/json")]
           body := Body.empty }] := by
    intro h tok net out htok hout
    cases net with
    | sendFail =>
        simp only [logout, htok] at hout
        cases hout
        rfl
    | ok s b =>
        simp only [logout, htok] at hout
        cases hout
        rfl
  refine ⟨key, ?_⟩
  intro h₀ h₁ u p r net out hlogin hout
  simp only [login] at hlogin
  cases hlogin
  exact key
    { base_url := h₀.base_url
      curr_token := some ("Bearer " ++ r.token)
      member_id := some r.member_id
      client := h₀.client
      state := AuthState.LoggedIn }
    ("Bearer " ++ r.token) net out rfl hout

/-- Witness for C6 at a concrete logged-in handle and response. -/
theorem logout_issues_single_bearer_post_witness :
    ({ requests :=
        [{ method := "POST"
           url := "https://trading-api" ++ "/logout"
           headers := [("Authorization", "Bearer tok0"),
                       ("content-type", "application/json")]
           body := Body.empty }]
       result := Except.ok
        { base_url := "https://trading-api"
          curr_token := none
          member_id := none
          client := ⟨3⟩
          state := AuthState.LoggedOut } } : LogoutOutcome).requests =
      [{ method := "POST"
         url := "https://trading-api" ++ "/logout"
         headers := [("Authorization", "Bearer tok0"),
                     ("content-type", "application/json")]
         body := Body.empty }] :=
  logout_issues_single_bearer_post.1 sampleLoggedIn "Bearer tok0"
    (LogoutNet.ok 200 "body") _ rfl rfl

/-- C7: a deserialization failure of the login response body yields
`DeserializationError`, a failure to complete the exchange yields
`TransportError` for both login and logout, a parsed body yields `Ok`, and
the two error kinds are distinct. -/
theorem error_kinds (h : Kalshi) (u p tok : String)
    (htok : h.curr_token = some tok) :
    (login h u p LoginNet.decodeFail).result =
      Except.error KalshiError.DeserializationError ∧
    (login h u p LoginNet.sendFail).result =
      Except.error KalshiError.TransportError ∧
    (∀ r : LoginResponse,
      ∃ h', (login h u p (LoginNet.ok r)).result = Except.ok h') ∧
    logout h LogoutNet.sendFail =
      some { requests := [logoutRequest h tok]
             result := Except.error KalshiError.TransportError } ∧
    KalshiError.DeserializationError ≠ KalshiError.TransportError := by
  refine ⟨rfl, rfl, fun r => ⟨_, rfl⟩, ?_, by decide⟩
  simp [logout, htok]

/-- Witness for C7 at a concrete handle. -/
theorem error_kinds_witness :
    (login sampleLoggedIn "u@v.com" "pw" LoginNet.decodeFail).result =
      Except.error KalshiError.DeserializationError :=
  (error_kinds sampleLoggedIn "u@v.com" "pw" "Bearer tok0" rfl).1

/-- C8: once the send completes with any response, logout returns `Ok`; the
response status and body are never inspected, so any two responses give the
same outcome. -/
theorem logout_ok_on_any_response (h : Kalshi) (tok : String)
    (htok : h.curr_token = some tok) (s s' : Nat) (b b' : String) :
    logout h (LogoutNet.ok s b) = logout h (LogoutNet.ok s' b') ∧
    logout h (LogoutNet.ok s b) =
      some
        { requests := [logoutRequest h tok]
          result := Except.ok
            { base_url := h.base_url
              curr_token := none
              member_id := none
              client := h.client
              state := AuthState.LoggedOut } } := by
  constructor <;> simp [logout, htok]

/-- Witness for C8: a 500 response with an error body and a 200 response
with an empty body give the same logout outcome. -/
theorem logout_ok_on_any_response_witness :
    logout sampleLoggedIn (LogoutNet.ok 500 "server error") =
      logout sampleLoggedIn (LogoutNet.ok 200 "") :=
  (logout_ok_on_any_response sampleLoggedIn "Bearer tok0" rfl
    500 200 "server error" "").1

/-- Concrete `LoggedIn` handle as returned by a concrete successful login. -/
def loggedInFromLogin : Kalshi :=
  { base_url := "https://api9"
    curr_token := some ("Bearer " ++ "tk9")
    member_id := some "m9"
    client := ⟨9⟩
    state := AuthState.LoggedIn }

/-- C9: every reachable `LoggedIn` handle has a stored token, so the
`unwrap` in logout's header construction never hits its panic branch: for
such handles `logout` always returns `some` outcome, whatever the network
does. -/
theorem loggedin_unwrap_safe (h : Kalshi) (hr : Reachable h)
    (hs : h.state = AuthState.LoggedIn) :
    h.curr_token.isSome = true ∧
    ∀ net : LogoutNet, (logout h net).isSome = true := by
  have htok := (reachable_fields hr).2 hs
  refine ⟨htok, fun net => ?_⟩
  rcases hsome : h.curr_token with _ | tok
  · rw [hsome] at htok
    simp at htok
  · cases net <;> simp [logout, hsome]

/-- Witness for C9 at a handle obtained through a concrete successful
login. -/
theorem loggedin_unwrap_safe_witness :
    loggedInFromLogin.curr_token.isSome = true :=
  (loggedin_unwrap_safe loggedInFromLogin
    (@Reachable.loginReturn (initialHandle "https://api9" ⟨9⟩)
      loggedInFromLogin "u@v.com" "pw"
      (LoginNet.ok { member_id := "m9", token := "tk9" })
      (Reachable.init "https://api9" ⟨9⟩) rfl rfl) rfl).1

/-- C10: the returned `LoggedOut` handle of a successful logout carries the
same base URL and the same reference-counted transport as the handle the
call was made on; the input handle itself, taken by shared reference, is
untouched. -/
theorem logout_preserves_url_and_transport (h h' : Kalshi) (net : LogoutNet)
    (out : LogoutOutcome) (hout : logout h net = some out)
    (hres : out.result = Except.ok h') :
    h'.base_url = h.base_url ∧ h'.client = h.client := by
  rcases htok : h.curr_token with _ | tok
  · simp [logout, htok] at hout
  · cases net with
    | sendFail =>
        simp only [logout, htok] at hout
        cases hout
        simp at hres
    | ok s b =>
        simp only [logout, htok] at hout
        cases hout
        cases hres
        exact ⟨rfl, rfl⟩

/-- Witness for C10 at a concrete successful logout call. -/
theorem logout_preserves_url_and_transport_witness :
    ({ base_url := "https://trading-api"
       curr_token := none
       member_id := none
       client := ⟨3⟩
       state := AuthState.LoggedOut } : Kalshi).base_url =
      sampleLoggedIn.base_url :=
  (logout_preserves_url_and_transport sampleLoggedIn _
    (LogoutNet.ok 204 "") _ rfl rfl).1

end KalshiAuth
